import Mathlib

/-!
# IndiEM urban digital twin: the map client (`backend/static/js/main.js`)

A shallow embedding of the client's quantile classifier, its style mapper, the
three fetch operations with their failure handlers, and the hover interaction of
a rendered region, together with the properties the design document states about
them.

Numbers are modelled exactly as rationals (`ℚ`); a value that JavaScript would
report as `undefined` is `none`.
-/

namespace IndiEM

/-! ## Data model -/

/-- A GeoJSON feature of the prediction grid.  Only `feature.properties` is read by
the client; every named metric is taken to hold a number. -/
structure Feature where
  properties : String → ℚ

/-- The decoded body of `/api/predictions`: `data.features`. -/
structure FeatureCollection where
  features : List Feature

/-- The mutable global `state` (lines 28-32). -/
structure State where
  year : Int
  scenario : String
  feature : String
deriving DecidableEq

/-- The value `state` is initialised with. -/
def initialState : State := { year := 2025, scenario := "Before", feature := "heat_risk_index" }

/-- The shape of the constant `PALETTE`. -/
structure Palette where
  q20 : String
  q40 : String
  q60 : String
  q80 : String
  q100 : String

/-- The constant `PALETTE` (lines 34-40). -/
def PALETTE : Palette :=
  { q20 := "#2ECC71", q40 := "#F1C40F", q60 := "#E67E22", q80 := "#E74C3C", q100 := "#7B241C" }

/-- The object `calculateQuantiles` returns.  A field is `none` when the array read
that produced it was out of range (`undefined`). -/
structure Quantiles where
  q20 : Option ℚ
  q40 : Option ℚ
  q60 : Option ℚ
  q80 : Option ℚ
deriving DecidableEq

/-- The style object `getFeatureStyle` returns; `color := none` is `color: null`. -/
structure PathStyle where
  fillColor : String
  weight : ℚ
  color : Option String
  fillOpacity : ℚ
deriving DecidableEq

/-! ## `calculateQuantiles` -/

/-- The comparator `(a, b) => a - b` handed to `Array.prototype.sort`. -/
def numCmp (a b : ℚ) : ℚ := a - b

/-- Relation induced by a comparator: `a` may stand before `b` when `cmp a b ≤ 0`. -/
def cmpLE (cmp : ℚ → ℚ → ℚ) (a b : ℚ) : Prop := cmp a b ≤ 0

instance (cmp : ℚ → ℚ → ℚ) : DecidableRel (cmpLE cmp) :=
  fun a b => inferInstanceAs (Decidable (cmp a b ≤ 0))

/-- Method `Array.prototype.sort(cmp)`: a stable comparison sort (insertion sort here; the
language leaves the algorithm open, the result for a consistent comparator does not
depend on it). -/
def jsSort (cmp : ℚ → ℚ → ℚ) (xs : List ℚ) : List ℚ :=
  xs.insertionSort (cmpLE cmp)

/-- Array read `xs[i]` for a numeric index: `undefined` outside `0 ≤ i < xs.length`. -/
def arrayGet (xs : List ℚ) (i : ℤ) : Option ℚ :=
  if i < 0 then none else xs[i.toNat]?

/-- The local closure `getQ` of `calculateQuantiles` (line 153):
`values[Math.floor((values.length - 1) * q)]`. -/
def getQ (values : List ℚ) (q : ℚ) : Option ℚ :=
  arrayGet values (Int.floor (((values.length : ℚ) - 1) * q))

/-- Function `calculateQuantiles(data, property)` (lines 150-155).  The literals `0.20`,
`0.40`, `0.60`, `0.80` denote the rationals 1/5 .. 4/5. -/
def calculateQuantiles (data : FeatureCollection) (property : String) : Quantiles :=
  let values := jsSort numCmp (data.features.map fun f => f.properties property)
  if values.length = 0 then { q20 := some 0, q40 := some 0, q60 := some 0, q80 := some 0 }
  else { q20 := getQ values 0.20, q40 := getQ values 0.40,
         q60 := getQ values 0.60, q80 := getQ values 0.80 }

/-! ## `getFeatureStyle` -/

/-- The comparison `v <= t` where `t` may be `undefined` (then it is false). -/
def jsLe (v : ℚ) (t : Option ℚ) : Bool :=
  match t with
  | some t => decide (v ≤ t)
  | none => false

/-- Function `getFeatureStyle(feature, q)` (lines 157-172).  The function reads the global
`state`, which is passed explicitly as `st`. -/
def getFeatureStyle (st : State) (feature : Feature) (q : Quantiles) : PathStyle :=
  let v := feature.properties st.feature
  let color :=
    if jsLe v q.q20 then PALETTE.q20
    else if jsLe v q.q40 then PALETTE.q40
    else if jsLe v q.q60 then PALETTE.q60
    else if jsLe v q.q80 then PALETTE.q80
    else PALETTE.q100
  { fillColor := color, weight := 0, color := none, fillOpacity := 0.1 }


/-! ## Tiers -/

/-- The five severity tiers, in ascending order. -/
inductive Tier where
  | q20
  | q40
  | q60
  | q80
  | q100
deriving DecidableEq

/-- Position of a tier in the order q20 < q40 < q60 < q80 < q100. -/
def Tier.rank : Tier → ℕ
  | .q20 => 1
  | .q40 => 2
  | .q60 => 3
  | .q80 => 4
  | .q100 => 5

/-- The `PALETTE` entry of a tier. -/
def Tier.color : Tier → String
  | .q20 => PALETTE.q20
  | .q40 => PALETTE.q40
  | .q60 => PALETTE.q60
  | .q80 => PALETTE.q80
  | .q100 => PALETTE.q100

/-- The tier read back from a fill colour; `none` for a colour outside `PALETTE`. -/
def tierOfColor (c : String) : Option Tier :=
  if c = PALETTE.q20 then some .q20
  else if c = PALETTE.q40 then some .q40
  else if c = PALETTE.q60 then some .q60
  else if c = PALETTE.q80 then some .q80
  else if c = PALETTE.q100 then some .q100
  else none

/-- Whether a fill colour is that of a tier at or below the `k`-th tier. -/
def tierAtMost (k : ℕ) (c : String) : Bool :=
  match tierOfColor c with
  | some t => decide (t.rank ≤ k)
  | none => false

/-- The `k`-th threshold of a quantile object: q20, q40, q60, q80 for `k` = 1 .. 4. -/
def Quantiles.nth (q : Quantiles) : ℕ → Option ℚ
  | 1 => q.q20
  | 2 => q.q40
  | 3 => q.q60
  | 4 => q.q80
  | _ => none

/-! ## The rendered layers -/

/-- A style object handed to Leaflet's `setStyle`: the options it names. -/
structure StylePatch where
  fillColor : Option String := none
  weight : Option ℚ := none
  color : Option (Option String) := none
  fillOpacity : Option ℚ := none

/-- Leaflet's `Path.setStyle(style)` (library code, outside the repository): every
option named in `style` replaces the layer's option, the others stay. -/
def setStyle (current : PathStyle) (style : StylePatch) : PathStyle :=
  { fillColor := style.fillColor.getD current.fillColor
    weight := style.weight.getD current.weight
    color := style.color.getD current.color
    fillOpacity := style.fillOpacity.getD current.fillOpacity }

/-- A style object naming all four options, as `getFeatureStyle` returns it. -/
def PathStyle.toPatch (s : PathStyle) : StylePatch :=
  { fillColor := some s.fillColor, weight := some s.weight, color := some s.color,
    fillOpacity := some s.fillOpacity }

/-- The value and metric name a region's tooltip was bound with (line 177); the
text is the name followed by `value.toFixed(2)`, whose digits are not modelled. -/
structure Tooltip where
  metric : String
  value : ℚ
deriving DecidableEq

/-- One region of the prediction grid as Leaflet holds it: the feature, the four
path options the client sets, and what `onEachFeature` bound to it. -/
structure RegionLayer where
  feature : Feature
  options : PathStyle
  tooltip : Option Tooltip
  hoverHandlers : Bool

/-- The layer `L.geoJSON(predData, ...)` of `fetchData`.  Its `style` option is the
closure `(feature) => getFeatureStyle(feature, quantiles)`, which captures the
`quantiles` of the fetch that built the layer. -/
structure GeoJsonLayer where
  quantiles : Quantiles
  regions : List RegionLayer

/-- A feature of `/api/it-park`: `properties.type` and, for a point, the pair
`geometry.coordinates` = `[lon, lat]`. -/
structure ParkFeature where
  type : String
  coordinates : ℚ × ℚ
deriving DecidableEq

/-- A circle of the policy buffers, `L.circle(latlng, options).bindPopup(popup)`. -/
structure Circle where
  latlng : ℚ × ℚ
  radius : ℕ
  color : String
  fillColor : String
  fillOpacity : ℚ
  weight : ℕ
  popup : String
deriving DecidableEq

/-- The `delta_metrics` object of `/api/impact-analysis`, each value as the text it
is interpolated as. -/
structure DeltaMetrics where
  temperature_rise : String
  traffic_increase : String
  pm25_worsening : String
deriving DecidableEq

/-- The decoded body of `/api/impact-analysis`. -/
structure Analysis where
  delta_metrics : Option DeltaMetrics
  severity : String
  recommendations : List String
deriving DecidableEq

/-! ## The client -/

/-- What went wrong in a fetch: `fetch` itself rejected, or `res.json()` did. -/
inductive JsError where
  | network
  | decode
deriving DecidableEq

/-- A `console.error` entry: the message and the error object logged with it. -/
structure LogEntry where
  message : String
  error : Option JsError
deriving DecidableEq

/-- The outcome of one request: `fetch` rejects, or a response arrives with its
`ok` flag and a body that decodes as JSON (`some`) or does not (`none`). -/
inductive Fetched (α : Type) where
  | networkError : Fetched α
  | response (ok : Bool) (body : Option α) : Fetched α

/-- What the server answers to the three requests of one `fetchData` run. -/
structure Env where
  predictions : Fetched FeatureCollection
  itPark : Fetched (List ParkFeature)
  analysis : Fetched Analysis

/-- The mutable globals of the script together with the page elements `els` it
writes and the console. -/
structure Client where
  state : State
  geoJsonLayer : Option GeoJsonLayer
  itParkBoundaryLayer : Option (List ParkFeature)
  itParkCirclesLayer : Option (List Circle)
  console : List LogEntry
  yearDisplay : String
  loadingHidden : Bool
  status : String
  legendContent : String
  aiPanelHidden : Bool
  aiMetrics : String
  aiSeverity : String
  aiRecommendations : String

/-- The page when the script starts: the initial `state`, no layers, an empty
console.  The texts of the page elements come from the HTML, which is outside the
sources; they are taken empty and the panels hidden. -/
def initialClient : Client :=
  { state := initialState, geoJsonLayer := none, itParkBoundaryLayer := none,
    itParkCirclesLayer := none, console := [], yearDisplay := "", loadingHidden := true,
    status := "", legendContent := "", aiPanelHidden := true, aiMetrics := "",
    aiSeverity := "", aiRecommendations := "" }

/-- What the user can see of the page elements: status, legend, loading indicator
and the analysis panel. -/
def Client.visible (c : Client) :
    String × Bool × String × String × Bool × String × String × String :=
  (c.yearDisplay, c.loadingHidden, c.status, c.legendContent, c.aiPanelHidden, c.aiMetrics,
    c.aiSeverity, c.aiRecommendations)

/-- The result of running an `async` function to completion: the client afterwards
and, when the returned promise rejects, the error it rejects with. -/
structure Outcome where
  client : Client
  thrown : Option JsError

/-- The steps `await fetch(url)` followed by `await res.json()`: the decoded body, or the
error that is thrown. -/
def Fetched.json {α : Type} : Fetched α → Except JsError α
  | .networkError => .error .network
  | .response _ none => .error .decode
  | .response _ (some data) => .ok data

/-- A request fails when `fetch` rejects or the body does not decode. -/
def Fetched.failed {α : Type} (r : Fetched α) : Bool :=
  match r.json with
  | .error _ => true
  | .ok _ => false

/-- Function `setLoading(b)` (line 212). -/
def setLoading (b : Bool) (c : Client) : Client :=
  if b then { c with loadingHidden := false } else { c with loadingHidden := true }

/-- Function `clearITParkLayers()` (lines 83-86). -/
def clearITParkLayers (c : Client) : Client :=
  let c := if c.itParkBoundaryLayer.isSome then { c with itParkBoundaryLayer := none } else c
  if c.itParkCirclesLayer.isSome then { c with itParkCirclesLayer := none } else c

/-- Function `updateLegend(q)` (lines 204-210). -/
def updateLegend (_q : Quantiles) (c : Client) : Client :=
  let html := "<b>" ++ c.state.feature ++ "</b><br>"
  let html := html ++ "<div style=\"display:flex; align-items:center;\"><span style=\"background:"
    ++ PALETTE.q20 ++ "; width:10px; height:10px; margin-right:5px;\"></span> Low</div>"
  let html := html ++ "<div style=\"display:flex; align-items:center;\"><span style=\"background:"
    ++ PALETTE.q60 ++ "; width:10px; height:10px; margin-right:5px;\"></span> High</div>"
  let html := html ++ "<div style=\"display:flex; align-items:center;\"><span style=\"background:"
    ++ PALETTE.q100 ++ "; width:10px; height:10px; margin-right:5px;\"></span> Extreme</div>"
  { c with legendContent := html }

/-- Function `onEachFeature(feature, layer)` (lines 174-181): `feature.properties` is always
present in this model, so the tooltip and both hover handlers are bound. -/
def onEachFeature (st : State) (layer : RegionLayer) : RegionLayer :=
  { layer with
    tooltip := some { metric := st.feature, value := layer.feature.properties st.feature }
    hoverHandlers := true }

/-- The call `L.geoJSON(predData, { style, onEachFeature })` as called in `fetchData`: one
region per feature, styled by the `style` closure, then passed to `onEachFeature`. -/
def geoJSON (st : State) (predData : FeatureCollection) (quantiles : Quantiles) : GeoJsonLayer :=
  { quantiles := quantiles
    regions := predData.features.map fun f =>
      onEachFeature st
        { feature := f, options := getFeatureStyle st f quantiles, tooltip := none,
          hoverHandlers := false } }

/-- The two circles `fetchITParkLayer` pushes for one point (lines 116-140). -/
def policyCircles (pt : ParkFeature) : List Circle :=
  let lat := pt.coordinates.2
  let lon := pt.coordinates.1
  let latlng := (lat, lon)
  [ { latlng := latlng, radius := 500, color := "green", fillColor := "green",
      fillOpacity := 0.6, weight := 1, popup := "Green Buffer Zone" },
    { latlng := latlng, radius := 300, color := "blue", fillColor := "blue",
      fillOpacity := 0.6, weight := 1, popup := "Traffic Management Zone" } ]

/-- Function `fetchITParkLayer()` (lines 88-148). -/
def fetchITParkLayer (env : Env) (c : Client) : Outcome :=
  match env.itPark with
  | .networkError =>
    { client := { c with console := c.console ++ [⟨"IT Park Logic Error:", some .network⟩] }
      thrown := none }
  | .response ok body =>
    if !ok then
      { client := { c with console := c.console ++ [⟨"API IT Park Error", none⟩] }
        thrown := none }
    else
      match body with
      | none =>
        { client := { c with console := c.console ++ [⟨"IT Park Logic Error:", some .decode⟩] }
          thrown := none }
      | some features =>
        let boundaries := features.filter fun f => f.type = "Boundary"
        let points := features.filter fun f => f.type = "Point"
        let c := if boundaries.length > 0 then { c with itParkBoundaryLayer := some boundaries }
          else c
        let c := if points.length > 0 then
            { c with itParkCirclesLayer := some (points.flatMap policyCircles) }
          else c
        { client := c, thrown := none }

/-- The markup `fetchAIAnalysis` writes into `aiMetrics` (lines 193-197). -/
def metricsHtml (m : DeltaMetrics) : String :=
  "\n                <div class=\"metric\"><span class=\"metric-label\">Temp</span><span class=\"metric-value\">+"
    ++ m.temperature_rise ++ "°C</span></div>"
    ++ "\n                <div class=\"metric\"><span class=\"metric-label\">Traffic</span><span class=\"metric-value\">+"
    ++ m.traffic_increase ++ "</span></div>"
    ++ "\n                <div class=\"metric\"><span class=\"metric-label\">PM2.5</span><span class=\"metric-value\">+"
    ++ m.pm25_worsening ++ "</span></div>\n            "

/-- Function `fetchAIAnalysis()` (lines 183-202). -/
def fetchAIAnalysis (env : Env) (c : Client) : Outcome :=
  let c := { c with aiPanelHidden := false }
  let c := { c with aiSeverity := "AI suggestions based on predictive analysis..." }
  let c := { c with aiMetrics := "", aiRecommendations := "<div>Loading...</div>" }
  match env.analysis.json with
  | .error _ => { client := { c with aiRecommendations := "Analysis Failed" }, thrown := none }
  | .ok data =>
    let c := match data.delta_metrics with
      | some m => { c with aiMetrics := metricsHtml m }
      | none => c
    let c := { c with aiSeverity := data.severity }
    let html := String.join
      (data.recommendations.map fun r => "<div class=\"rec-item\">" ++ r ++ "</div>")
    let c := { c with aiRecommendations := html }
    { client := c, thrown := none }

/-- The `try` block of `fetchData` (lines 50-73).  An exception ends the block; the
client reached so far is kept. -/
def fetchDataBody (env : Env) (c : Client) : Outcome :=
  match env.predictions.json with
  | .error e => { client := c, thrown := some e }
  | .ok predData =>
    let quantiles := calculateQuantiles predData c.state.feature
    let c := { c with geoJsonLayer := some (geoJSON c.state predData quantiles) }
    let c := updateLegend quantiles c
    let c := clearITParkLayers c
    if c.state.scenario = "After" then
      let r := fetchITParkLayer env c
      match r.thrown with
      | some e => { client := r.client, thrown := some e }
      | none => { client := (fetchAIAnalysis env r.client).client, thrown := none }
    else { client := { c with aiPanelHidden := true }, thrown := none }

/-- Function `fetchData()` (lines 47-81): the `try` block, the `catch` handler and the
`finally` clause.  The call `fetchAIAnalysis()` is not awaited in the source; here
it runs to completion in place. -/
def fetchData (env : Env) (c : Client) : Outcome :=
  let c := setLoading true c
  let r := fetchDataBody env c
  let c := match r.thrown with
    | some e =>
      { r.client with
        console := r.client.console ++ [⟨"Main Fetch Error:", some e⟩], status := "Error" }
    | none => r.client
  { client := setLoading false c, thrown := none }

/-! ## Events -/

/-- The handler of `mouseover` on a region (line 178):
`e.target.setStyle({ weight: 2, color: '#fff', fillOpacity: 0.9 })`. -/
def mouseover (layer : RegionLayer) : RegionLayer :=
  { layer with
    options := setStyle layer.options
      { weight := some 2, color := some (some "#fff"), fillOpacity := some 0.9 } }

/-- Leaflet's `GeoJSON.resetStyle(layer)` (library code, outside the repository): the
layer's options are reset to their defaults and the `style` option of the GeoJSON
layer is applied again; `style` being a function, it is called again on the
layer's feature.  Here `style` is the closure of `fetchData`, which calls
`getFeatureStyle` with the captured quantiles and reads the global `state` as it is
at the time of the call. -/
def resetStyle (st : State) (owner : GeoJsonLayer) (layer : RegionLayer) : RegionLayer :=
  { layer with
    options := setStyle layer.options (getFeatureStyle st layer.feature owner.quantiles).toPatch }

/-- The handler of `mouseout` on a region (line 179): `geoJsonLayer.resetStyle(e.target)`,
with `geoJsonLayer` and `state` the globals at the time of the event. -/
def mouseout (c : Client) (layer : RegionLayer) : RegionLayer :=
  match c.geoJsonLayer with
  | some owner => resetStyle c.state owner layer
  | none => layer

/-- Apply a handler to the `i`-th region of the rendered grid, if there is one and
`onEachFeature` bound the hover handlers to it. -/
def Client.onRegion (c : Client) (i : ℕ) (handler : RegionLayer → RegionLayer) : Client :=
  match c.geoJsonLayer with
  | none => c
  | some g =>
    let regions := g.regions.modify (fun r => if r.hoverHandlers then handler r else r) i
    { c with geoJsonLayer := some { g with regions := regions } }

/-- What can happen to the client: the three controls (lines 42-44), the close button
of the panel (line 45), and the pointer entering or leaving the `i`-th region. -/
inductive Event where
  | featureChange (value : String)
  | yearInput (value : Int)
  | scenarioToggle (checked : Bool)
  | closeAiPanel
  | pointerEnter (i : ℕ)
  | pointerExit (i : ℕ)

/-- One event handled by the client; `env` is what the server answers to the fetches
the handler starts. -/
def step (env : Env) (c : Client) : Event → Client
  | .featureChange value =>
    (fetchData env { c with state := { c.state with feature := value } }).client
  | .yearInput value =>
    let c := { c with state := { c.state with year := value } }
    let c := { c with yearDisplay := toString c.state.year }
    (fetchData env c).client
  | .scenarioToggle checked =>
    (fetchData env
      { c with state := { c.state with scenario := if checked then "After" else "Before" } }).client
  | .closeAiPanel => { c with aiPanelHidden := true }
  | .pointerEnter i => c.onRegion i mouseover
  | .pointerExit i => c.onRegion i (mouseout c)

/-- The client after the script has loaded (its last line calls `fetchData()`) and
after the given events, each with the server's answers. -/
def run (load : Env) (events : List (Env × Event)) : Client :=
  events.foldl (fun c e => step e.1 c e.2) (fetchData load initialClient).client

/-- The style of the `i`-th rendered region, if there is one. -/
def Client.regionStyle (c : Client) (i : ℕ) : Option PathStyle :=
  match c.geoJsonLayer with
  | none => none
  | some g => g.regions[i]?.map fun r => r.options

/-! ## Test data -/

/-- A feature every metric of which has the value `v`. -/
def sampleFeature (v : ℚ) : Feature := ⟨fun _ => v⟩

/-- A feature whose `heat_risk_index` is 1 and whose other metrics are 100. -/
def gridFeature : Feature := ⟨fun name => if name = "heat_risk_index" then 1 else 100⟩

/-- The thresholds of the design document's example. -/
def sampleThresholds : Quantiles := { q20 := some 1, q40 := some 2, q60 := some 3, q80 := some 4 }

/-- A server that answers the prediction request with the one-region grid
`[gridFeature]`. -/
def gridEnv : Env :=
  { predictions := .response true (some ⟨[gridFeature]⟩), itPark := .networkError,
    analysis := .networkError }

/-- A server on which only `/api/predictions` cannot be reached. -/
def predictionsDownEnv : Env :=
  { predictions := .networkError, itPark := .response true (some []),
    analysis := .response true (some { delta_metrics := none, severity := "Low",
                                       recommendations := [] }) }

/-- A server on which only `/api/it-park` fails: the body does not decode. -/
def itParkDownEnv : Env :=
  { predictions := .response true (some ⟨[gridFeature]⟩), itPark := .response true none,
    analysis := .response true (some { delta_metrics := none, severity := "Low",
                                       recommendations := [] }) }

/-- A server on which only `/api/impact-analysis` cannot be reached. -/
def analysisDownEnv : Env :=
  { predictions := .response true (some ⟨[gridFeature]⟩), itPark := .response true (some []),
    analysis := .networkError }

/-- A server that cannot be reached. -/
def downEnv : Env :=
  { predictions := .networkError, itPark := .networkError, analysis := .networkError }

/-! ## Facts about the sort and the rank -/

theorem cmpLE_numCmp_iff (a b : ℚ) : cmpLE numCmp a b ↔ a ≤ b := by
  unfold cmpLE numCmp
  exact sub_nonpos

theorem cmpLE_numCmp_total (a b : ℚ) : cmpLE numCmp a b ∨ cmpLE numCmp b a := by
  simpa only [cmpLE_numCmp_iff] using le_total a b

theorem cmpLE_numCmp_trans (a b c : ℚ) (hab : cmpLE numCmp a b) (hbc : cmpLE numCmp b c) :
    cmpLE numCmp a c := by
  rw [cmpLE_numCmp_iff] at *
  exact le_trans hab hbc

theorem jsSort_perm (xs : List ℚ) : (jsSort numCmp xs).Perm xs :=
  List.perm_insertionSort _ xs

theorem jsSort_length (xs : List ℚ) : (jsSort numCmp xs).length = xs.length :=
  (jsSort_perm xs).length_eq

theorem jsSort_sorted (xs : List ℚ) : (jsSort numCmp xs).Sorted (· ≤ ·) :=
  haveI : IsTotal ℚ (cmpLE numCmp) := ⟨cmpLE_numCmp_total⟩
  haveI : IsTrans ℚ (cmpLE numCmp) := ⟨cmpLE_numCmp_trans⟩
  (List.sorted_insertionSort (cmpLE numCmp) xs).imp fun h => (cmpLE_numCmp_iff _ _).1 h

/-- The sorted array is the only ascending rearrangement of the values. -/
theorem jsSort_unique (xs s : List ℚ) (hs : s.Sorted (· ≤ ·)) (hp : s.Perm xs) :
    jsSort numCmp xs = s :=
  List.eq_of_perm_of_sorted ((jsSort_perm xs).trans hp.symm) (jsSort_sorted xs) hs

/-- The rank `Math.floor((n - 1) * (20 k / 100))` is the natural number `(n - 1) * k / 5`. -/
theorem floor_rank (n k : ℕ) (hn : 0 < n) :
    Int.floor (((n : ℚ) - 1) * ((20 * k : ℕ) / 100)) = (((n - 1) * k / 5 : ℕ) : ℤ) := by
  have h1 : ((n : ℚ) - 1) * ((20 * k : ℕ) / 100) = (((n - 1) * k : ℕ) : ℚ) / ((5 : ℕ) : ℚ) := by
    have : ((n - 1 : ℕ) : ℚ) = (n : ℚ) - 1 := by
      rw [Nat.cast_sub hn]; simp
    push_cast
    rw [this]
    ring
  rw [h1, Rat.floor_natCast_div_natCast]
  exact (Int.natCast_div _ _).symm

theorem rank_lt (n k : ℕ) (hn : 0 < n) (hk : k ≤ 5) : (n - 1) * k / 5 < n := by
  have : (n - 1) * k ≤ (n - 1) * 5 := Nat.mul_le_mul_left _ hk
  have h2 : (n - 1) * k / 5 ≤ n - 1 := by
    calc (n - 1) * k / 5 ≤ (n - 1) * 5 / 5 := Nat.div_le_div_right this
      _ = n - 1 := by simp
  omega

theorem rank_mono (n j k : ℕ) (hjk : j ≤ k) : (n - 1) * j / 5 ≤ (n - 1) * k / 5 :=
  Nat.div_le_div_right (Nat.mul_le_mul_left _ hjk)

theorem getQ_eq (values : List ℚ) (k : ℕ) (hv : values ≠ []) :
    getQ values ((20 * k : ℕ) / 100) = values[(values.length - 1) * k / 5]? := by
  have hn : 0 < values.length := List.length_pos.2 hv
  unfold getQ arrayGet
  rw [floor_rank _ _ hn, if_neg (not_lt.2 (Int.natCast_nonneg _)), Int.toNat_natCast]

/-- What `calculateQuantiles` returns on a non-empty collection, in terms of the
sorted values. -/
theorem calculateQuantiles_of_ne_nil (data : FeatureCollection) (property : String)
    (h : data.features ≠ []) :
    calculateQuantiles data property =
      (let values := jsSort numCmp (data.features.map fun f => f.properties property)
       let n := data.features.length
       { q20 := values[(n - 1) * 1 / 5]?, q40 := values[(n - 1) * 2 / 5]?,
         q60 := values[(n - 1) * 3 / 5]?, q80 := values[(n - 1) * 4 / 5]? }) := by
  have hlen : (jsSort numCmp (data.features.map fun f => f.properties property)).length
      = data.features.length := by rw [jsSort_length, List.length_map]
  have hv : jsSort numCmp (data.features.map fun f => f.properties property) ≠ [] := by
    intro h0
    rw [h0] at hlen
    exact h (List.length_eq_zero.1 hlen.symm)
  have e1 := getQ_eq _ 1 hv
  have e2 := getQ_eq _ 2 hv
  have e3 := getQ_eq _ 3 hv
  have e4 := getQ_eq _ 4 hv
  rw [hlen] at e1 e2 e3 e4
  norm_num at e1 e2 e3 e4
  unfold calculateQuantiles
  simp only [hlen]
  rw [if_neg (by simpa using h)]
  norm_num
  simp only [e1, e2, e3, e4]
  simp

theorem calculateQuantiles_sorted_form (data : FeatureCollection) (property : String)
    (s : List ℚ) (hne : data.features ≠ []) (hs : s.Sorted (· ≤ ·))
    (hp : s.Perm (data.features.map fun f => f.properties property)) :
    calculateQuantiles data property =
      { q20 := s[(data.features.length - 1) * 1 / 5]?,
        q40 := s[(data.features.length - 1) * 2 / 5]?,
        q60 := s[(data.features.length - 1) * 3 / 5]?,
        q80 := s[(data.features.length - 1) * 4 / 5]? } := by
  rw [calculateQuantiles_of_ne_nil data property hne]
  simp only [jsSort_unique _ s hs hp]

theorem sorted_length (data : FeatureCollection) (property : String) (s : List ℚ)
    (hp : s.Perm (data.features.map fun f => f.properties property)) :
    s.length = data.features.length := by
  rw [hp.length_eq, List.length_map]

theorem sorted_getElem?_rank (data : FeatureCollection) (property : String) (s : List ℚ)
    (hne : data.features ≠ [])
    (hp : s.Perm (data.features.map fun f => f.properties property)) (k : ℕ) (hk : k ≤ 5) :
    ∃ h : (data.features.length - 1) * k / 5 < s.length,
      s[(data.features.length - 1) * k / 5]? = some (s.get ⟨_, h⟩) := by
  have hlt : (data.features.length - 1) * k / 5 < s.length := by
    rw [sorted_length data property s hp]
    exact rank_lt _ _ (List.length_pos.2 hne) hk
  exact ⟨hlt, List.getElem?_eq_getElem hlt⟩

theorem five_samples_sorted :
    ([1, 2, 3, 4, 5] : List ℚ).Sorted (· ≤ ·) := by
  simp [List.Sorted]
  norm_num

theorem calculateQuantiles_five_samples (property : String) :
    calculateQuantiles
        ⟨[sampleFeature 1, sampleFeature 2, sampleFeature 3, sampleFeature 4, sampleFeature 5]⟩
        property
      = { q20 := some 1, q40 := some 2, q60 := some 3, q80 := some 4 } := by
  rw [calculateQuantiles_sorted_form _ property [1, 2, 3, 4, 5] (by simp) five_samples_sorted
    (by simp [sampleFeature])]
  rfl

/-! ## Properties of `calculateQuantiles` -/

/-- C1: on a non-empty collection with `n` features, `calculateQuantiles` returns as
q20, q40, q60, q80 the elements at the 0-based indices `(n-1)*1/5`, `(n-1)*2/5`,
`(n-1)*3/5`, `(n-1)*4/5` (natural-number division, i.e. the floor) of the values
sorted ascending, `s` being any ascending rearrangement of the values; and for the
values 1, 2, 3, 4, 5 it returns 1, 2, 3, 4. -/
theorem calculateQuantiles_nearest_rank (data : FeatureCollection) (property : String)
    (s : List ℚ) (hne : data.features ≠ []) (hs : s.Sorted (· ≤ ·))
    (hp : s.Perm (data.features.map fun f => f.properties property)) :
    (∃ a b c d : ℚ,
        s[(data.features.length - 1) * 1 / 5]? = some a ∧
        s[(data.features.length - 1) * 2 / 5]? = some b ∧
        s[(data.features.length - 1) * 3 / 5]? = some c ∧
        s[(data.features.length - 1) * 4 / 5]? = some d ∧
        calculateQuantiles data property
          = { q20 := some a, q40 := some b, q60 := some c, q80 := some d }) ∧
      calculateQuantiles
          ⟨[sampleFeature 1, sampleFeature 2, sampleFeature 3, sampleFeature 4, sampleFeature 5]⟩
          property
        = { q20 := some 1, q40 := some 2, q60 := some 3, q80 := some 4 } := by
  refine ⟨?_, calculateQuantiles_five_samples property⟩
  obtain ⟨h1, e1⟩ := sorted_getElem?_rank data property s hne hp 1 (by omega)
  obtain ⟨h2, e2⟩ := sorted_getElem?_rank data property s hne hp 2 (by omega)
  obtain ⟨h3, e3⟩ := sorted_getElem?_rank data property s hne hp 3 (by omega)
  obtain ⟨h4, e4⟩ := sorted_getElem?_rank data property s hne hp 4 (by omega)
  refine ⟨_, _, _, _, e1, e2, e3, e4, ?_⟩
  rw [calculateQuantiles_sorted_form data property s hne hs hp, e1, e2, e3, e4]

theorem calculateQuantiles_nearest_rank_witness :
    ([1, 2, 3] : List ℚ).Sorted (· ≤ ·) ∧
      calculateQuantiles ⟨[sampleFeature 3, sampleFeature 1, sampleFeature 2]⟩ "heat_risk_index"
        = { q20 := some 1, q40 := some 1, q60 := some 2, q80 := some 2 } := by
  have hs : ([1, 2, 3] : List ℚ).Sorted (· ≤ ·) := by
    simp [List.Sorted]
    norm_num
  have hp : ([1, 2, 3] : List ℚ).Perm
      (([sampleFeature 3, sampleFeature 1, sampleFeature 2] : List Feature).map
        fun f => f.properties "heat_risk_index") :=
    ((List.Perm.swap 1 3 [2]).trans ((List.Perm.swap 2 3 []).cons 1)).symm
  obtain ⟨a, b, c, d, ha, hb, hc, hd, h⟩ :=
    (calculateQuantiles_nearest_rank
      ⟨[sampleFeature 3, sampleFeature 1, sampleFeature 2]⟩ "heat_risk_index" [1, 2, 3]
      (by simp) hs hp).1
  simp at ha hb hc hd
  subst ha hb hc hd
  exact ⟨hs, h⟩

/-- C3: on a non-empty collection the four thresholds are numbers and are
non-decreasing, q20 ≤ q40 ≤ q60 ≤ q80. -/
theorem calculateQuantiles_nondecreasing (data : FeatureCollection) (property : String)
    (hne : data.features ≠ []) :
    ∃ a b c d : ℚ,
      calculateQuantiles data property
        = { q20 := some a, q40 := some b, q60 := some c, q80 := some d } ∧
      a ≤ b ∧ b ≤ c ∧ c ≤ d := by
  have hs := jsSort_sorted (data.features.map fun f => f.properties property)
  have hp := jsSort_perm (data.features.map fun f => f.properties property)
  obtain ⟨h1, e1⟩ := sorted_getElem?_rank data property _ hne hp 1 (by omega)
  obtain ⟨h2, e2⟩ := sorted_getElem?_rank data property _ hne hp 2 (by omega)
  obtain ⟨h3, e3⟩ := sorted_getElem?_rank data property _ hne hp 3 (by omega)
  obtain ⟨h4, e4⟩ := sorted_getElem?_rank data property _ hne hp 4 (by omega)
  refine ⟨List.get _ ⟨_, h1⟩, List.get _ ⟨_, h2⟩, List.get _ ⟨_, h3⟩, List.get _ ⟨_, h4⟩,
    ?_, ?_, ?_, ?_⟩
  · rw [calculateQuantiles_sorted_form data property _ hne hs hp, e1, e2, e3, e4]
  · exact hs.rel_get_of_le (rank_mono _ 1 2 (by omega))
  · exact hs.rel_get_of_le (rank_mono _ 2 3 (by omega))
  · exact hs.rel_get_of_le (rank_mono _ 3 4 (by omega))

theorem calculateQuantiles_nondecreasing_witness :
    ∃ a b c d : ℚ,
      calculateQuantiles ⟨[sampleFeature 3, sampleFeature 1, sampleFeature 2]⟩ "heat_risk_index"
        = { q20 := some a, q40 := some b, q60 := some c, q80 := some d } ∧
      a ≤ b ∧ b ≤ c ∧ c ≤ d :=
  calculateQuantiles_nondecreasing
    ⟨[sampleFeature 3, sampleFeature 1, sampleFeature 2]⟩ "heat_risk_index" (by simp)

/-- C4: for a collection with no features `calculateQuantiles` returns
`{q20: 0, q40: 0, q60: 0, q80: 0}`, whatever the property name. -/
theorem calculateQuantiles_empty (property : String) :
    calculateQuantiles { features := [] } property
      = { q20 := some 0, q40 := some 0, q60 := some 0, q80 := some 0 } := by
  simp [calculateQuantiles, jsSort]

/-- C10: the thresholds depend on the multiset of features only: a permutation of
the features leaves all four thresholds unchanged. -/
theorem calculateQuantiles_perm (d₁ d₂ : FeatureCollection) (property : String)
    (h : d₁.features.Perm d₂.features) :
    calculateQuantiles d₁ property = calculateQuantiles d₂ property := by
  have hv : (d₁.features.map fun f => f.properties property).Perm
      (d₂.features.map fun f => f.properties property) := h.map _
  have hsort : jsSort numCmp (d₁.features.map fun f => f.properties property)
      = jsSort numCmp (d₂.features.map fun f => f.properties property) :=
    jsSort_unique _ _ (jsSort_sorted _) ((jsSort_perm _).trans hv.symm)
  unfold calculateQuantiles
  rw [hsort]

theorem calculateQuantiles_perm_witness :
    calculateQuantiles ⟨[sampleFeature 3, sampleFeature 1, sampleFeature 2]⟩ "heat_risk_index"
      = calculateQuantiles ⟨[sampleFeature 1, sampleFeature 3, sampleFeature 2]⟩
          "heat_risk_index" :=
  calculateQuantiles_perm ⟨[sampleFeature 3, sampleFeature 1, sampleFeature 2]⟩
    ⟨[sampleFeature 1, sampleFeature 3, sampleFeature 2]⟩ "heat_risk_index"
    (List.Perm.swap (sampleFeature 1) (sampleFeature 3) [sampleFeature 2])

/-! ## Properties of `getFeatureStyle` -/

theorem tierOfColor_color (t : Tier) : tierOfColor t.color = some t := by
  cases t <;> decide

theorem Tier.color_injective : Function.Injective Tier.color := by
  intro s t h
  have := congrArg tierOfColor h
  rw [tierOfColor_color, tierOfColor_color] at this
  exact Option.some.inj this

/-- The tier `getFeatureStyle` picks, as a first-match over the four thresholds. -/
theorem getFeatureStyle_fillColor (st : State) (feature : Feature) (q : Quantiles) :
    (getFeatureStyle st feature q).fillColor =
      if jsLe (feature.properties st.feature) q.q20 then Tier.q20.color
      else if jsLe (feature.properties st.feature) q.q40 then Tier.q40.color
      else if jsLe (feature.properties st.feature) q.q60 then Tier.q60.color
      else if jsLe (feature.properties st.feature) q.q80 then Tier.q80.color
      else Tier.q100.color := rfl

theorem getFeatureStyle_tier (st : State) (feature : Feature) (q : Quantiles) :
    ∃ t : Tier, (getFeatureStyle st feature q).fillColor = t.color := by
  rw [getFeatureStyle_fillColor]
  split_ifs
  exacts [⟨_, rfl⟩, ⟨_, rfl⟩, ⟨_, rfl⟩, ⟨_, rfl⟩, ⟨_, rfl⟩]

theorem jsLe_some (v t : ℚ) : jsLe v (some t) = true ↔ v ≤ t := by
  simp [jsLe]

theorem jsLe_trans (v w : ℚ) (t : Option ℚ) (hvw : v ≤ w) (h : jsLe w t = true) :
    jsLe v t = true := by
  cases t with
  | none => simp [jsLe] at h
  | some t =>
    rw [jsLe_some] at *
    exact le_trans hvw h

/-- C2: for every value `v` of the selected metric and all numeric thresholds
`a, b, c, d` (q20, q40, q60, q80), the fill colour `getFeatureStyle` assigns is the
colour of exactly one tier; it is the colour of the first threshold, in the order
q20, q40, q60, q80, with `v ≤` that threshold, and `PALETTE.q100` when `v` exceeds
all four; equality with a threshold counts as `≤`, so with thresholds 1, 2, 3, 4 the
value 4 gets the q80 colour and the value 10 the q100 colour. -/
theorem getFeatureStyle_classifies (st : State) (feature : Feature) (a b c d : ℚ) :
    (∃! t : Tier,
        (getFeatureStyle st feature
          { q20 := some a, q40 := some b, q60 := some c, q80 := some d }).fillColor = t.color) ∧
      (feature.properties st.feature ≤ a →
        (getFeatureStyle st feature
          { q20 := some a, q40 := some b, q60 := some c, q80 := some d }).fillColor
          = PALETTE.q20) ∧
      (a < feature.properties st.feature → feature.properties st.feature ≤ b →
        (getFeatureStyle st feature
          { q20 := some a, q40 := some b, q60 := some c, q80 := some d }).fillColor
          = PALETTE.q40) ∧
      (a < feature.properties st.feature → b < feature.properties st.feature →
        feature.properties st.feature ≤ c →
        (getFeatureStyle st feature
          { q20 := some a, q40 := some b, q60 := some c, q80 := some d }).fillColor
          = PALETTE.q60) ∧
      (a < feature.properties st.feature → b < feature.properties st.feature →
        c < feature.properties st.feature → feature.properties st.feature ≤ d →
        (getFeatureStyle st feature
          { q20 := some a, q40 := some b, q60 := some c, q80 := some d }).fillColor
          = PALETTE.q80) ∧
      (a < feature.properties st.feature → b < feature.properties st.feature →
        c < feature.properties st.feature → d < feature.properties st.feature →
        (getFeatureStyle st feature
          { q20 := some a, q40 := some b, q60 := some c, q80 := some d }).fillColor
          = PALETTE.q100) ∧
      (getFeatureStyle st (sampleFeature 4)
          { q20 := some 1, q40 := some 2, q60 := some 3, q80 := some 4 }).fillColor
        = PALETTE.q80 ∧
      (getFeatureStyle st (sampleFeature 10)
          { q20 := some 1, q40 := some 2, q60 := some 3, q80 := some 4 }).fillColor
        = PALETTE.q100 := by
  refine ⟨?_, ?_, ?_, ?_, ?_, ?_, ?_, ?_⟩
  · obtain ⟨t, ht⟩ := getFeatureStyle_tier st feature
      { q20 := some a, q40 := some b, q60 := some c, q80 := some d }
    exact ⟨t, ht, fun t' ht' => Tier.color_injective (ht'.symm.trans ht)⟩
  · intro h1
    simp [getFeatureStyle, jsLe, h1]
  · intro h1 h2
    simp [getFeatureStyle, jsLe, not_le.2 h1, h2]
  · intro h1 h2 h3
    simp [getFeatureStyle, jsLe, not_le.2 h1, not_le.2 h2, h3]
  · intro h1 h2 h3 h4
    simp [getFeatureStyle, jsLe, not_le.2 h1, not_le.2 h2, not_le.2 h3, h4]
  · intro h1 h2 h3 h4
    simp [getFeatureStyle, jsLe, not_le.2 h1, not_le.2 h2, not_le.2 h3, not_le.2 h4]
  · simp [getFeatureStyle, jsLe, sampleFeature]
    norm_num
  · simp [getFeatureStyle, jsLe, sampleFeature]
    norm_num

/-- C8: classification is monotone in the value: for all thresholds, ordered or
not, and features `f`, `g` whose values of the selected metric satisfy `v ≤ w`, the
tier read back from the fill colour of `f` is not higher than that of `g`. -/
theorem getFeatureStyle_monotone (st : State) (f g : Feature) (q : Quantiles)
    (h : f.properties st.feature ≤ g.properties st.feature) :
    ∃ tf tg : Tier,
      tierOfColor (getFeatureStyle st f q).fillColor = some tf ∧
      tierOfColor (getFeatureStyle st g q).fillColor = some tg ∧
      tf.rank ≤ tg.rank := by
  have m := fun t => jsLe_trans _ _ t h
  rw [getFeatureStyle_fillColor, getFeatureStyle_fillColor]
  by_cases g1 : jsLe (g.properties st.feature) q.q20 = true
  · exact ⟨.q20, .q20, by simp [m _ g1, tierOfColor_color], by simp [g1, tierOfColor_color],
      le_refl _⟩
  by_cases g2 : jsLe (g.properties st.feature) q.q40 = true
  · by_cases f1 : jsLe (f.properties st.feature) q.q20 = true
    · exact ⟨.q20, .q40, by simp [f1, tierOfColor_color], by simp [g1, g2, tierOfColor_color],
        by decide⟩
    · exact ⟨.q40, .q40, by simp [f1, m _ g2, tierOfColor_color],
        by simp [g1, g2, tierOfColor_color], by decide⟩
  by_cases g3 : jsLe (g.properties st.feature) q.q60 = true
  · by_cases f1 : jsLe (f.properties st.feature) q.q20 = true
    · exact ⟨.q20, .q60, by simp [f1, tierOfColor_color],
        by simp [g1, g2, g3, tierOfColor_color], by decide⟩
    by_cases f2 : jsLe (f.properties st.feature) q.q40 = true
    · exact ⟨.q40, .q60, by simp [f1, f2, tierOfColor_color],
        by simp [g1, g2, g3, tierOfColor_color], by decide⟩
    · exact ⟨.q60, .q60, by simp [f1, f2, m _ g3, tierOfColor_color],
        by simp [g1, g2, g3, tierOfColor_color], by decide⟩
  by_cases g4 : jsLe (g.properties st.feature) q.q80 = true
  · by_cases f1 : jsLe (f.properties st.feature) q.q20 = true
    · exact ⟨.q20, .q80, by simp [f1, tierOfColor_color],
        by simp [g1, g2, g3, g4, tierOfColor_color], by decide⟩
    by_cases f2 : jsLe (f.properties st.feature) q.q40 = true
    · exact ⟨.q40, .q80, by simp [f1, f2, tierOfColor_color],
        by simp [g1, g2, g3, g4, tierOfColor_color], by decide⟩
    by_cases f3 : jsLe (f.properties st.feature) q.q60 = true
    · exact ⟨.q60, .q80, by simp [f1, f2, f3, tierOfColor_color],
        by simp [g1, g2, g3, g4, tierOfColor_color], by decide⟩
    · exact ⟨.q80, .q80, by simp [f1, f2, f3, m _ g4, tierOfColor_color],
        by simp [g1, g2, g3, g4, tierOfColor_color], by decide⟩
  · obtain ⟨tf, htf⟩ := getFeatureStyle_tier st f q
    rw [getFeatureStyle_fillColor] at htf
    refine ⟨tf, .q100, by rw [htf, tierOfColor_color],
      by simp [g1, g2, g3, g4, tierOfColor_color], ?_⟩
    cases tf <;> decide

theorem getFeatureStyle_monotone_witness :
    ∃ tf tg : Tier,
      tierOfColor (getFeatureStyle initialState (sampleFeature 1)
        { q20 := some 4, q40 := some 3, q60 := some 2, q80 := some 1 }).fillColor = some tf ∧
      tierOfColor (getFeatureStyle initialState (sampleFeature 10)
        { q20 := some 4, q40 := some 3, q60 := some 2, q80 := some 1 }).fillColor = some tg ∧
      tf.rank ≤ tg.rank :=
  getFeatureStyle_monotone initialState (sampleFeature 1) (sampleFeature 10)
    { q20 := some 4, q40 := some 3, q60 := some 2, q80 := some 1 }
    (show (1 : ℚ) ≤ 10 by norm_num)

/-! ## Thresholds and classification of the same grid -/

theorem tierAtMost_of_jsLe (st : State) (f : Feature) (q : Quantiles) (k : ℕ)
    (h : jsLe (f.properties st.feature) (q.nth k) = true) :
    tierAtMost k (getFeatureStyle st f q).fillColor = true := by
  obtain ⟨t, ht⟩ := getFeatureStyle_tier st f q
  have hk : t.rank ≤ k := by
    rw [getFeatureStyle_fillColor] at ht
    match k, h with
    | 1, h =>
      simp only [Quantiles.nth] at h
      rw [if_pos h] at ht
      rw [← Tier.color_injective ht]; decide
    | 2, h =>
      simp only [Quantiles.nth] at h
      split_ifs at ht <;> (rw [← Tier.color_injective ht]; decide)
    | 3, h =>
      simp only [Quantiles.nth] at h
      split_ifs at ht <;> (rw [← Tier.color_injective ht]; decide)
    | 4, h =>
      simp only [Quantiles.nth] at h
      split_ifs at ht <;> (rw [← Tier.color_injective ht]; decide)
    | 0, h => simp [Quantiles.nth, jsLe] at h
    | (n + 5), h => simp [Quantiles.nth, jsLe] at h
  unfold tierAtMost
  rw [ht, tierOfColor_color]
  simpa using hk

theorem calculateQuantiles_nth (data : FeatureCollection) (property : String)
    (hne : data.features ≠ []) (k : ℕ) (h1 : 1 ≤ k) (h4 : k ≤ 4) :
    (calculateQuantiles data property).nth k =
      (jsSort numCmp (data.features.map fun f => f.properties property))[
        (data.features.length - 1) * k / 5]? := by
  rw [calculateQuantiles_of_ne_nil data property hne]
  have : k = 1 ∨ k = 2 ∨ k = 3 ∨ k = 4 := by omega
  rcases this with rfl | rfl | rfl | rfl <;> rfl

theorem sorted_count_le (s : List ℚ) (hs : s.Sorted (· ≤ ·)) (i : ℕ) (hi : i < s.length) :
    i + 1 ≤ s.countP (fun x => jsLe x (some (s.get ⟨i, hi⟩))) := by
  have hall : ∀ x ∈ s.take (i + 1), jsLe x (some (s.get ⟨i, hi⟩)) = true := by
    intro x hx
    obtain ⟨j, hj, rfl⟩ := List.mem_take_iff_getElem.1 hx
    rw [jsLe_some]
    have hji : j ≤ i := by
      have := lt_min_iff.1 hj
      omega
    exact hs.rel_get_of_le (a := ⟨j, (lt_min_iff.1 hj).2⟩) (b := ⟨i, hi⟩) hji
  calc i + 1 = (s.take (i + 1)).length := by
        rw [List.length_take]; omega
    _ = (s.take (i + 1)).countP (fun x => jsLe x (some (s.get ⟨i, hi⟩))) :=
        (List.countP_eq_length.2 hall).symm
    _ ≤ s.countP (fun x => jsLe x (some (s.get ⟨i, hi⟩))) :=
        (List.take_sublist _ _).countP_le _

/-- C9: when the thresholds are those `calculateQuantiles` computes from the same
non-empty grid of `n` features and the same metric, then for each `k` in 1 .. 4 at
least `(n-1)*k/5 + 1` features get a tier at or below the `k`-th tier, and every
feature whose value is minimal in the grid is coloured `PALETTE.q20`. -/
theorem quantile_tiers_populated (st : State) (data : FeatureCollection)
    (hne : data.features ≠ []) :
    (∀ k : ℕ, 1 ≤ k → k ≤ 4 →
        (data.features.length - 1) * k / 5 + 1 ≤
          data.features.countP fun f =>
            tierAtMost k
              (getFeatureStyle st f (calculateQuantiles data st.feature)).fillColor) ∧
      (∀ f ∈ data.features,
        (∀ g ∈ data.features, f.properties st.feature ≤ g.properties st.feature) →
        (getFeatureStyle st f (calculateQuantiles data st.feature)).fillColor = PALETTE.q20) := by
  have hs := jsSort_sorted (data.features.map fun f => f.properties st.feature)
  have hp := jsSort_perm (data.features.map fun f => f.properties st.feature)
  constructor
  · intro k h1 h4
    obtain ⟨hi, ei⟩ := sorted_getElem?_rank data st.feature _ hne hp k (by omega)
    have hq := calculateQuantiles_nth data st.feature hne k h1 h4
    rw [ei] at hq
    calc (data.features.length - 1) * k / 5 + 1
        ≤ (jsSort numCmp (data.features.map fun f => f.properties st.feature)).countP
            (fun x => jsLe x (some (List.get _ ⟨_, hi⟩))) := sorted_count_le _ hs _ hi
      _ = (data.features.map fun f => f.properties st.feature).countP
            (fun x => jsLe x (some (List.get _ ⟨_, hi⟩))) := hp.countP_eq _
      _ = data.features.countP
            ((fun x => jsLe x (some (List.get _ ⟨_, hi⟩))) ∘ fun f => f.properties st.feature) :=
          List.countP_map _ _ _
      _ ≤ _ := by
          apply List.countP_mono_left
          intro f _ hf
          apply tierAtMost_of_jsLe
          rw [hq]
          exact hf
  · intro f _ hmin
    obtain ⟨hi, ei⟩ := sorted_getElem?_rank data st.feature _ hne hp 1 (by omega)
    have hq := calculateQuantiles_nth data st.feature hne 1 (le_refl _) (by omega)
    rw [ei] at hq
    have hmem : List.get _ ⟨_, hi⟩ ∈ data.features.map fun f => f.properties st.feature :=
      hp.subset (List.get_mem _ _ _)
    obtain ⟨g, hg, hgv⟩ := List.mem_map.1 hmem
    have hle : jsLe (f.properties st.feature) (calculateQuantiles data st.feature).q20 = true := by
      have : (calculateQuantiles data st.feature).q20 = some (List.get _ ⟨_, hi⟩) := hq
      rw [this, jsLe_some, ← hgv]
      exact hmin g hg
    rw [getFeatureStyle_fillColor, if_pos hle]
    rfl

theorem quantile_tiers_populated_witness :
    (∀ k : ℕ, 1 ≤ k → k ≤ 4 →
        (3 - 1) * k / 5 + 1 ≤
          ([sampleFeature 3, sampleFeature 1, sampleFeature 2] : List Feature).countP fun f =>
            tierAtMost k
              (getFeatureStyle initialState f
                (calculateQuantiles ⟨[sampleFeature 3, sampleFeature 1, sampleFeature 2]⟩
                  initialState.feature)).fillColor) ∧
      (getFeatureStyle initialState (sampleFeature 1)
          (calculateQuantiles ⟨[sampleFeature 3, sampleFeature 1, sampleFeature 2]⟩
            initialState.feature)).fillColor = PALETTE.q20 := by
  have h := quantile_tiers_populated initialState
    ⟨[sampleFeature 3, sampleFeature 1, sampleFeature 2]⟩ (by simp)
  refine ⟨h.1, h.2 (sampleFeature 1) (by simp) ?_⟩
  intro g hg
  simp only [List.mem_cons, List.mem_singleton, List.not_mem_nil, or_false] at hg
  rcases hg with rfl | rfl | rfl <;> simp [sampleFeature]

/-! ## Hidden state of the classifier -/

/-- C5, counterexample: the same feature and thresholds are coloured
`PALETTE.q20` while `state.feature` is `heat_risk_index` and `PALETTE.q100` once it is
`traffic_density`, so the result depends on the global `state`. -/
theorem getFeatureStyle_reads_state :
    (getFeatureStyle initialState gridFeature sampleThresholds).fillColor = PALETTE.q20 ∧
      (getFeatureStyle { initialState with feature := "traffic_density" } gridFeature
        sampleThresholds).fillColor = PALETTE.q100 ∧
      PALETTE.q20 ≠ PALETTE.q100 := by
  refine ⟨by decide, by decide, by decide⟩

/-- C5, with the selected metric fixed: the style is determined by the two arguments and the selected
metric `state.feature`: in any two states with the same `state.feature`, whatever
their year and scenario, `getFeatureStyle` returns the same style. -/
theorem getFeatureStyle_determined (s₁ s₂ : State) (feature : Feature) (q : Quantiles)
    (h : s₁.feature = s₂.feature) :
    getFeatureStyle s₁ feature q = getFeatureStyle s₂ feature q := by
  unfold getFeatureStyle
  rw [h]

theorem getFeatureStyle_determined_witness :
    getFeatureStyle initialState gridFeature sampleThresholds
      = getFeatureStyle { year := 2040, scenario := "After", feature := "heat_risk_index" }
          gridFeature sampleThresholds :=
  getFeatureStyle_determined initialState
    { year := 2040, scenario := "After", feature := "heat_risk_index" } gridFeature
    sampleThresholds rfl

/-! ## Failure handling of the three fetch operations -/

theorem fetchITParkLayer_thrown (env : Env) (c : Client) :
    (fetchITParkLayer env c).thrown = none := by
  unfold fetchITParkLayer
  cases env.itPark with
  | networkError => rfl
  | response ok body =>
    cases ok <;> cases body <;> rfl

theorem fetchAIAnalysis_thrown (env : Env) (c : Client) :
    (fetchAIAnalysis env c).thrown = none := by
  unfold fetchAIAnalysis
  cases env.analysis.json <;> rfl

theorem json_error_of_failed {α : Type} (r : Fetched α) (h : r.failed = true) :
    ∃ e, r.json = .error e := by
  unfold Fetched.failed at h
  cases hj : r.json with
  | error e => exact ⟨e, rfl⟩
  | ok a => rw [hj] at h; cases h

/-- C6, counterexample: when the IT-park request cannot be reached,
`fetchITParkLayer` writes a console entry but leaves every page element as it was, and
when the analysis request cannot be reached, `fetchAIAnalysis` sets the panel text
but writes nothing to the console. -/
theorem fetch_failure_not_uniform :
    downEnv.itPark.failed = true ∧
      (fetchITParkLayer downEnv initialClient).client.visible = initialClient.visible ∧
      downEnv.analysis.failed = true ∧
      (fetchAIAnalysis downEnv initialClient).client.console = initialClient.console := by
  refine ⟨rfl, rfl, rfl, rfl⟩

/-- C6, operation by operation, each under the failure of its own request alone:
when the prediction fetch or its decoding fails, `fetchData` lets no exception
escape, appends one console entry and sets the status text to `Error`; when the
IT-park fetch or its decoding fails, `fetchITParkLayer` lets no exception escape,
appends one console entry and changes no page element; when the analysis fetch or
its decoding fails, `fetchAIAnalysis` lets no exception escape, sets the
recommendations text to `Analysis Failed` and leaves the console as it was. -/
theorem fetch_failure_handling (env : Env) (c : Client) :
    (env.predictions.failed = true →
        (fetchData env c).thrown = none ∧
        (∃ e, (fetchData env c).client.console = c.console ++ [⟨"Main Fetch Error:", some e⟩]) ∧
        (fetchData env c).client.status = "Error") ∧
      (env.itPark.failed = true →
        (fetchITParkLayer env c).thrown = none ∧
        (∃ entry, (fetchITParkLayer env c).client.console = c.console ++ [entry]) ∧
        (fetchITParkLayer env c).client.visible = c.visible) ∧
      (env.analysis.failed = true →
        (fetchAIAnalysis env c).thrown = none ∧
        (fetchAIAnalysis env c).client.aiRecommendations = "Analysis Failed" ∧
        (fetchAIAnalysis env c).client.console = c.console) := by
  refine ⟨fun hp => ⟨rfl, ?_, ?_⟩, fun hi => ⟨fetchITParkLayer_thrown env c, ?_, ?_⟩,
    fun ha => ⟨fetchAIAnalysis_thrown env c, ?_, ?_⟩⟩
  · obtain ⟨e, he⟩ := json_error_of_failed _ hp
    refine ⟨e, ?_⟩
    simp [fetchData, fetchDataBody, he, setLoading]
  · obtain ⟨e, he⟩ := json_error_of_failed _ hp
    simp [fetchData, fetchDataBody, he, setLoading]
  · unfold fetchITParkLayer
    cases hr : env.itPark with
    | networkError => exact ⟨_, rfl⟩
    | response ok body =>
      cases body with
      | some d => rw [hr] at hi; cases hi
      | none => cases ok <;> exact ⟨_, rfl⟩
  · unfold fetchITParkLayer
    cases hr : env.itPark with
    | networkError => rfl
    | response ok body =>
      cases body with
      | some d => rw [hr] at hi; cases hi
      | none => cases ok <;> rfl
  · obtain ⟨e, he⟩ := json_error_of_failed _ ha
    simp [fetchAIAnalysis, he]
  · obtain ⟨e, he⟩ := json_error_of_failed _ ha
    simp [fetchAIAnalysis, he]

theorem fetch_failure_handling_witness :
    ((fetchData predictionsDownEnv initialClient).thrown = none ∧
        (∃ e, (fetchData predictionsDownEnv initialClient).client.console
          = initialClient.console ++ [⟨"Main Fetch Error:", some e⟩]) ∧
        (fetchData predictionsDownEnv initialClient).client.status = "Error") ∧
      ((fetchITParkLayer itParkDownEnv initialClient).thrown = none ∧
        (∃ entry, (fetchITParkLayer itParkDownEnv initialClient).client.console
          = initialClient.console ++ [entry]) ∧
        (fetchITParkLayer itParkDownEnv initialClient).client.visible
          = initialClient.visible) ∧
      ((fetchAIAnalysis analysisDownEnv initialClient).thrown = none ∧
        (fetchAIAnalysis analysisDownEnv initialClient).client.aiRecommendations
          = "Analysis Failed" ∧
        (fetchAIAnalysis analysisDownEnv initialClient).client.console
          = initialClient.console) :=
  ⟨(fetch_failure_handling predictionsDownEnv initialClient).1 rfl,
    (fetch_failure_handling itParkDownEnv initialClient).2.1 rfl,
    (fetch_failure_handling analysisDownEnv initialClient).2.2 rfl⟩

/-! ## Hover interaction -/

theorem calculateQuantiles_gridFeature :
    calculateQuantiles ⟨[gridFeature]⟩ "heat_risk_index"
      = { q20 := some 1, q40 := some 1, q60 := some 1, q80 := some 1 } := by
  rw [calculateQuantiles_sorted_form _ _ [1] (by simp) (by simp) (by simp [gridFeature])]
  rfl

/-- The client after the page has loaded the one-region grid and the metric selector
was then moved to `traffic_density` while the server could not be reached: the grid
rendered for `heat_risk_index` is still on the map. -/
theorem run_selector_changed :
    run gridEnv [(downEnv, .featureChange "traffic_density")] =
      { initialClient with
        state := { initialState with feature := "traffic_density" }
        geoJsonLayer := some (geoJSON initialState ⟨[gridFeature]⟩
          (calculateQuantiles ⟨[gridFeature]⟩ "heat_risk_index"))
        console := [⟨"Main Fetch Error:", some .network⟩]
        status := "Error"
        legendContent := (updateLegend sampleThresholds initialClient).legendContent } := by
  rfl

theorem regionStyle_selector_changed :
    (run gridEnv [(downEnv, .featureChange "traffic_density")]).regionStyle 0
      = some (getFeatureStyle initialState gridFeature
          (calculateQuantiles ⟨[gridFeature]⟩ "heat_risk_index")) := by
  rfl

theorem regionStyle_after_hover :
    (step downEnv (step downEnv (run gridEnv [(downEnv, .featureChange "traffic_density")])
        (.pointerEnter 0)) (.pointerExit 0)).regionStyle 0
      = some (getFeatureStyle { initialState with feature := "traffic_density" } gridFeature
          (calculateQuantiles ⟨[gridFeature]⟩ "heat_risk_index")) := by
  rfl

theorem regionStyle_pointer_entered :
    (step downEnv (run gridEnv [(downEnv, .featureChange "traffic_density")])
        (.pointerEnter 0)).regionStyle 0
      = some (setStyle (getFeatureStyle initialState gridFeature
            (calculateQuantiles ⟨[gridFeature]⟩ "heat_risk_index"))
          { weight := some 2, color := some (some "#fff"), fillOpacity := some 0.9 }) := by
  rfl

/-- C7, evaluated on a stale grid: the page loads a one-region grid under
`heat_risk_index`, then the metric selector is moved to `traffic_density` while the
server cannot be reached.  The region still has the style of render time (q20 colour,
weight 0, fill opacity 0.1); pointer-enter gives it weight 2, a white border and fill
opacity 0.9; after pointer-exit its fill colour is `PALETTE.q100`, not the
`PALETTE.q20` it had before the pointer entered. -/
theorem hover_does_not_restore :
    (run gridEnv [(downEnv, .featureChange "traffic_density")]).regionStyle 0
        = some { fillColor := PALETTE.q20, weight := 0, color := none, fillOpacity := 0.1 } ∧
      (step downEnv (run gridEnv [(downEnv, .featureChange "traffic_density")])
          (.pointerEnter 0)).regionStyle 0
        = some { fillColor := PALETTE.q20, weight := 2, color := some "#fff",
                 fillOpacity := 0.9 } ∧
      (step downEnv (step downEnv (run gridEnv [(downEnv, .featureChange "traffic_density")])
          (.pointerEnter 0)) (.pointerExit 0)).regionStyle 0
        = some { fillColor := PALETTE.q100, weight := 0, color := none, fillOpacity := 0.1 } ∧
      PALETTE.q20 ≠ PALETTE.q100 := by
  refine ⟨?_, ?_, ?_, by decide⟩
  · rw [regionStyle_selector_changed, calculateQuantiles_gridFeature]
    rfl
  · rw [regionStyle_pointer_entered, calculateQuantiles_gridFeature]
    rfl
  · rw [regionStyle_after_hover, calculateQuantiles_gridFeature]
    rfl


/-- While the selected metric is the one the grid was rendered with, pointer-enter
followed by pointer-exit gives a region back the style of render time. -/
theorem hover_restores_same_metric (c : Client) (owner : GeoJsonLayer) (layer : RegionLayer)
    (hc : c.geoJsonLayer = some owner)
    (hr : layer.options = getFeatureStyle c.state layer.feature owner.quantiles) :
    (mouseout c (mouseover layer)).options = layer.options := by
  unfold mouseout
  rw [hc, hr]
  rfl

theorem getFeatureStyle_classifies_witness :
    (getFeatureStyle initialState (sampleFeature 4)
        { q20 := some 1, q40 := some 2, q60 := some 3, q80 := some 4 }).fillColor
      = PALETTE.q80 :=
  (getFeatureStyle_classifies initialState (sampleFeature 4) 1 2 3 4).2.2.2.2.1
    (show (1 : ℚ) < 4 by norm_num) (show (2 : ℚ) < 4 by norm_num)
    (show (3 : ℚ) < 4 by norm_num) (show (4 : ℚ) ≤ 4 by norm_num)

end IndiEM
